import Mathlib

/-!
Shallow embedding of the axon crate (a Rust abstraction layer for LLM
inference engines) and proofs about its vLLM backend.

The embedding mirrors the source files:
  src/error.rs            -> AxonError
  src/backend.rs          -> HealthStatus, BackendMetrics
  src/lib.rs (mod types)  -> ModelConfig, SamplingParams, InferenceRequest,
                             InferenceResponse
  src/vllm/config.rs      -> VllmConfig, VllmConfig.from_model_config
  src/vllm/process.rs     -> VllmProcessS, spawn, is_running, waitFrom,
                             wait_until_ready, terminate
  src/vllm/client.rs      -> VllmClientS, clientHealthCheck, buildWireRequest,
                             serializeWire, responseFromVllm, clientInfer
  src/vllm.rs             -> VllmBackendS and the InferenceBackend methods

Side effects (process spawning, OS signals, HTTP) are modelled by an
environment of oracles (Env) that the operations consult, and each
effectful operation also returns the list of external effects it
performed, so that claims of the form "no process is spawned and no
network call is made" are expressible as the trace being empty.
Rust f32/f64 values are modelled as Float; they are carried around but
never compared in proofs. Machine integers u16/u32/u64/usize are
modelled as Nat (no arithmetic near the overflow boundary occurs in the
modelled code).
-/

namespace Axon

/-- Error type, from src/error.rs (enum AxonError). The payloads of
IoError and HttpError are modelled by their rendered message strings. -/
inductive AxonError where
  | InvalidConfig (msg : String)
  | ModelLoadFailed (msg : String)
  | InferenceFailed (msg : String)
  | BackendNotRunning
  | Unhealthy (msg : String)
  | IoError (msg : String)
  | HttpError (msg : String)
  | Timeout (msg : String)
  | BackendError (msg : String)
  | Other (msg : String)
  deriving DecidableEq

/-- Health status of a backend, from src/backend.rs (enum HealthStatus). -/
inductive HealthStatus where
  | Healthy
  | Starting
  | Degraded
  | Failed
  deriving DecidableEq

/-- Metrics reported by a backend, from src/backend.rs (struct BackendMetrics). -/
structure BackendMetrics where
  pending_requests : Nat
  total_requests : Nat
  failed_requests : Nat
  average_tps : Float
  memory_usage_percent : Option Float
  gpu_utilization_percent : Option Float

/-- BackendMetrics::new from src/backend.rs: empty metrics. -/
def BackendMetrics.new : BackendMetrics :=
  { pending_requests := 0
    total_requests := 0
    failed_requests := 0
    average_tps := 0.0
    memory_usage_percent := none
    gpu_utilization_percent := none }

/-- Configuration for loading a model, from src/lib.rs (struct ModelConfig). -/
structure ModelConfig where
  model_name : String
  tensor_parallel_size : Option Nat
  max_batch_size : Option Nat
  max_sequence_length : Option Nat
  dtype : Option String
  host : Option String
  port : Option Nat
  extra_options : List (String × String)

/-- Default for ModelConfig, from src/lib.rs (impl Default for ModelConfig). -/
def ModelConfig.default : ModelConfig :=
  { model_name := ""
    tensor_parallel_size := some 1
    max_batch_size := some 256
    max_sequence_length := some 2048
    dtype := some "auto"
    host := some "127.0.0.1"
    port := some 8000
    extra_options := [] }

/-- Parameters controlling generation behavior, from src/lib.rs
(struct SamplingParams). -/
structure SamplingParams where
  max_tokens : Nat
  temperature : Float
  top_p : Option Float
  top_k : Option Nat
  presence_penalty : Option Float
  frequency_penalty : Option Float
  stop_sequences : List String

/-- Default for SamplingParams, from src/lib.rs. -/
def SamplingParams.default : SamplingParams :=
  { max_tokens := 100
    temperature := 1.0
    top_p := some 1.0
    top_k := none
    presence_penalty := some 0.0
    frequency_penalty := some 0.0
    stop_sequences := [] }

/-- A single inference request, from src/lib.rs (struct InferenceRequest). -/
structure InferenceRequest where
  prompt : String
  sampling : SamplingParams
  request_id : Option String

/-- Default for InferenceRequest, from src/lib.rs. -/
def InferenceRequest.default : InferenceRequest :=
  { prompt := ""
    sampling := SamplingParams.default
    request_id := none }

/-- Response from an inference request, from src/lib.rs
(struct InferenceResponse). -/
structure InferenceResponse where
  text : String
  tokens_generated : Nat
  inference_time : Float
  tokens_per_second : Float
  finish_reason : String
  request_id : Option String

/-- vLLM-specific configuration, from src/vllm/config.rs (struct VllmConfig). -/
structure VllmConfig where
  model_name : String
  host : String
  port : Nat
  tensor_parallel_size : Option Nat
  max_sequence_length : Option Nat
  dtype : Option String

/-- VllmConfig::from_model_config, from src/vllm/config.rs. -/
def VllmConfig.from_model_config (config : ModelConfig) : VllmConfig :=
  { model_name := config.model_name
    host := config.host.getD "127.0.0.1"
    port := config.port.getD 8000
    tensor_parallel_size := config.tensor_parallel_size
    max_sequence_length := config.max_sequence_length
    dtype := config.dtype }

/-- Outcome of a single HTTP GET probe (the health endpoint). ok2xx is a
response whose status is_success; okNon2xx carries the rendered non-success
status; transportErr carries the rendered reqwest error message. -/
inductive ProbeAttempt where
  | ok2xx
  | okNon2xx (status : String)
  | transportErr (msg : String)
  deriving DecidableEq

/-- JSON values appearing in the serialized completion-request body. -/
inductive JVal where
  | jstr (s : String)
  | jnat (n : Nat)
  | jfloat (x : Float)
  | jarr (xs : List String)

/-- The wire request, from src/vllm/client.rs (struct VllmCompletionRequest). -/
structure VllmCompletionRequest where
  model : String
  prompt : String
  max_tokens : Nat
  temperature : Float
  top_p : Option Float
  top_k : Option Nat
  presence_penalty : Option Float
  frequency_penalty : Option Float
  stop : Option (List String)

/-- One choice of the wire response, from src/vllm/client.rs
(struct VllmChoice). -/
structure VllmChoice where
  text : String
  finish_reason : String
  text_tokens : Option Nat

/-- Usage block of the wire response, from src/vllm/client.rs
(struct VllmUsage). -/
structure VllmUsage where
  prompt_tokens : Nat
  completion_tokens : Nat
  total_tokens : Nat

/-- The wire response, from src/vllm/client.rs (struct VllmCompletionResponse). -/
structure VllmCompletionResponse where
  id : String
  choices : List VllmChoice
  usage : VllmUsage

/-- Outcome of the POST to /v1/completions: a transport error, an HTTP
failure status (with rendered status and body text), or an HTTP success
carrying the measured elapsed seconds and the result of JSON-decoding the
body into a VllmCompletionResponse (decoding may itself fail). -/
inductive HttpInferOutcome where
  | transportErr (msg : String)
  | httpFail (status : String) (body : String)
  | httpOk (elapsed : Float) (decoded : Except String VllmCompletionResponse)

/-- External effects an operation can perform: spawning an OS process,
an HTTP GET probe, an HTTP POST inference call, and the two signals used
by terminate. -/
inductive Effect where
  | spawnProc
  | netProbe
  | netInfer
  | sigTerm
  | sigKill
  deriving DecidableEq

/-- Oracle environment standing for the outside world: the OS result of a
spawn attempt (a pid, or a rendered error), the readiness-probe responses
by url and attempt index, the outcome of a single client health probe, the
outcome of the inference POST given the serialized body, and process
aliveness before and after a SIGTERM plus the 5-second grace period. -/
structure Env where
  spawnOS : VllmConfig → Except String Nat
  httpGet : String → Nat → ProbeAttempt
  healthProbe : ProbeAttempt
  httpPost : List (String × JVal) → HttpInferOutcome
  alive : Nat → Bool
  aliveAfterTerm : Nat → Bool

/-- A running vLLM server process, from src/vllm/process.rs
(struct VllmProcess): it records only the child pid. -/
structure VllmProcessS where
  pid : Option Nat

/-- VllmProcess::host from src/vllm/process.rs: a hardcoded constant,
ignoring the configuration the process was spawned with. -/
def VllmProcessS.host (_ : VllmProcessS) : String := "127.0.0.1"

/-- VllmProcess::port from src/vllm/process.rs: a hardcoded constant. -/
def VllmProcessS.port (_ : VllmProcessS) : Nat := 8000

/-- The url polled by VllmProcess::wait_until_ready, from src/vllm/process.rs
line 74: http plus self.host() plus self.port() plus /health. -/
def readyUrl (p : VllmProcessS) : String :=
  "http://" ++ p.host ++ ":" ++ toString p.port ++ "/health"

/-- The health endpoint of the server a VllmConfig actually launches
(its own host and port, as passed to the subprocess by spawn). -/
def vllmHealthUrl (cfg : VllmConfig) : String :=
  "http://" ++ cfg.host ++ ":" ++ toString cfg.port ++ "/health"

/-- VllmProcess::is_running from src/vllm/process.rs: with a pid, a signal-0
existence probe (the oracle answers it); with no pid, false. -/
def VllmProcessS.is_running (aliveOracle : Nat → Bool) (p : VllmProcessS) : Bool :=
  match p.pid with
  | some pid => aliveOracle pid
  | none => false

/-- VllmProcess::spawn from src/vllm/process.rs: builds the python command
with model, host and port always present, asks the OS to spawn it, wraps an
OS failure as ModelLoadFailed, and records the child pid. -/
def spawn (env : Env) (config : VllmConfig) : Except AxonError VllmProcessS :=
  match env.spawnOS config with
  | .error e => .error (.ModelLoadFailed ("Failed to spawn vLLM: " ++ e))
  | .ok pid => .ok { pid := some pid }

/-- The polling loop body of VllmProcess::wait_until_ready: probe i is the
next attempt index and the second argument the remaining attempt budget.
Each iteration first sleeps 2 seconds, then probes once; a 2xx response
returns success immediately, anything else continues. Returns the result,
the number of probe attempts made, and the total seconds slept. -/
def waitFrom (probe : Nat → ProbeAttempt) : Nat → Nat → Except AxonError Unit × Nat × Nat
  | _, 0 => (.error (.ModelLoadFailed "vLLM did not become ready in time"), 0, 0)
  | i, r + 1 =>
    match probe i with
    | .ok2xx => (.ok (), 1, 2)
    | _ =>
      let rest := waitFrom probe (i + 1) r
      (rest.1, rest.2.1 + 1, rest.2.2 + 2)

/-- VllmProcess::wait_until_ready from src/vllm/process.rs: 60 attempts of
the polling loop against the (hardcoded) readyUrl of the handle. -/
def wait_until_ready (env : Env) (p : VllmProcessS) : Except AxonError Unit × Nat × Nat :=
  waitFrom (fun i => env.httpGet (readyUrl p) i) 0 60

/-- VllmProcess::terminate from src/vllm/process.rs: with a pid, send
SIGTERM, sleep the 5-second grace period, and send SIGKILL only if the
process is still running afterwards (is_running with a pid present reduces
to the aliveness oracle at that pid); with no pid, do nothing. Always
returns success. -/
def VllmProcessS.terminate (env : Env) (p : VllmProcessS) : Except AxonError Unit × List Effect :=
  match p.pid with
  | some pid =>
    if env.aliveAfterTerm pid then (.ok (), [.sigTerm, .sigKill])
    else (.ok (), [.sigTerm])
  | none => (.ok (), [])

/-- HTTP client for communicating with vLLM, from src/vllm/client.rs
(struct VllmClient); the reqwest client with its fixed 120-second timeout
lives in the environment. -/
structure VllmClientS where
  base_url : String

/-- VllmClient::health_check from src/vllm/client.rs: a 2xx response
succeeds, a non-2xx status fails with Unhealthy carrying the status, a
transport error becomes HttpError via the From impl in src/error.rs. -/
def clientHealthCheck (outcome : ProbeAttempt) : Except AxonError Unit :=
  match outcome with
  | .ok2xx => .ok ()
  | .okNon2xx status => .error (.Unhealthy ("Status: " ++ status))
  | .transportErr msg => .error (.HttpError msg)

/-- The VllmCompletionRequest built by VllmClient::infer from
src/vllm/client.rs lines 43 to 57: model is the literal string default,
the sampling fields are copied one-to-one, and stop is None exactly when
the stop-sequence list is empty. -/
def buildWireRequest (request : InferenceRequest) : VllmCompletionRequest :=
  { model := "default"
    prompt := request.prompt
    max_tokens := request.sampling.max_tokens
    temperature := request.sampling.temperature
    top_p := request.sampling.top_p
    top_k := request.sampling.top_k
    presence_penalty := request.sampling.presence_penalty
    frequency_penalty := request.sampling.frequency_penalty
    stop := if request.sampling.stop_sequences.isEmpty then none
            else some request.sampling.stop_sequences }

/-- Serde serialization of VllmCompletionRequest from src/vllm/client.rs
lines 90 to 106: the four mandatory fields in declaration order, then each
optional field present only when it is Some (skip_serializing_if
Option::is_none), as an ordered key-value list. -/
def serializeWire (r : VllmCompletionRequest) : List (String × JVal) :=
  [("model", JVal.jstr r.model),
   ("prompt", JVal.jstr r.prompt),
   ("max_tokens", JVal.jnat r.max_tokens),
   ("temperature", JVal.jfloat r.temperature)]
  ++ (match r.top_p with | none => [] | some v => [("top_p", JVal.jfloat v)])
  ++ (match r.top_k with | none => [] | some v => [("top_k", JVal.jnat v)])
  ++ (match r.presence_penalty with
      | none => [] | some v => [("presence_penalty", JVal.jfloat v)])
  ++ (match r.frequency_penalty with
      | none => [] | some v => [("frequency_penalty", JVal.jfloat v)])
  ++ (match r.stop with | none => [] | some xs => [("stop", JVal.jarr xs)])

/-- The decode-and-build step of VllmClient::infer on an HTTP-successful
response, from src/vllm/client.rs lines 71 to 85: require at least one
choice (an empty choice list is InferenceFailed), then build the unified
response from the first choice only, the measured elapsed time, and the
echoed request id. -/
def responseFromVllm (elapsed : Float) (rid : Option String)
    (vr : VllmCompletionResponse) : Except AxonError InferenceResponse :=
  match vr.choices with
  | [] => .error (.InferenceFailed "No choices in response")
  | choice :: _ =>
    .ok { text := choice.text
          tokens_generated := choice.text_tokens.getD 0
          inference_time := elapsed
          tokens_per_second :=
            if elapsed > 0.0 then Float.ofNat (choice.text_tokens.getD 0) / elapsed
            else 0.0
          finish_reason := choice.finish_reason
          request_id := rid }

/-- VllmClient::infer from src/vllm/client.rs, given the outcome of the
POST: a transport error maps to HttpError, a non-success status to
InferenceFailed carrying status and body, a body-decoding error to
HttpError, and a decoded body to responseFromVllm. -/
def clientInfer (outcome : HttpInferOutcome) (request : InferenceRequest) :
    Except AxonError InferenceResponse :=
  match outcome with
  | .transportErr msg => .error (.HttpError msg)
  | .httpFail status body => .error (.InferenceFailed (status ++ ": " ++ body))
  | .httpOk elapsed decoded =>
    match decoded with
    | .error msg => .error (.HttpError msg)
    | .ok vr => responseFromVllm elapsed request.request_id vr

/-- The vLLM backend state, from src/vllm.rs (struct VllmBackend). -/
structure VllmBackendS where
  process : Option VllmProcessS
  client : Option VllmClientS
  owns_process : Bool
  current_model : Option String
  metrics : BackendMetrics

/-- VllmBackend::new from src/vllm.rs: a backend that will spawn its own
process. -/
def VllmBackendS.new : VllmBackendS :=
  { process := none
    client := none
    owns_process := true
    current_model := none
    metrics := BackendMetrics.new }

/-- VllmBackend::connect_to from src/vllm.rs: a backend pointed at an
existing server, owning no process. -/
def VllmBackendS.connect_to (base_url : String) : VllmBackendS :=
  { process := none
    client := some { base_url := base_url }
    owns_process := false
    current_model := none
    metrics := BackendMetrics.new }

/-- VllmBackend::check_process from src/vllm.rs: is_running of the owned
process when there is one, otherwise false (the source wraps this in an
always-Ok Result). -/
def VllmBackendS.check_process (env : Env) (b : VllmBackendS) : Bool :=
  match b.process with
  | some process => process.is_running env.alive
  | none => false

/-- VllmBackend::load_model from src/vllm.rs lines 114 to 140. The
validation of the model name comes first; when the backend owns its
process it translates the config, spawns, waits for readiness, and
installs the client and the process handle; then (whenever a client
exists) one verification health probe runs, and only on its success is
the current model recorded. Returns the result, the new state and the
trace of external effects. -/
def VllmBackendS.load_model (env : Env) (b : VllmBackendS) (config : ModelConfig) :
    Except AxonError Unit × VllmBackendS × List Effect :=
  if config.model_name.isEmpty then
    (.error (.InvalidConfig "model_name cannot be empty"), b, [])
  else if b.owns_process then
    match spawn env (VllmConfig.from_model_config config) with
    | .error e => (.error e, b, [.spawnProc])
    | .ok process =>
      match wait_until_ready env process with
      | (.error e, n, _) =>
        (.error e, b, .spawnProc :: List.replicate n .netProbe)
      | (.ok _, n, _) =>
        let base_url :=
          "http://" ++ config.host.getD "127.0.0.1" ++ ":"
            ++ toString (config.port.getD 8000)
        let b1 := { b with client := some { base_url := base_url },
                           process := some process }
        let tr := .spawnProc :: (List.replicate n Effect.netProbe ++ [.netProbe])
        match clientHealthCheck env.healthProbe with
        | .error e => (.error e, b1, tr)
        | .ok _ => (.ok (), { b1 with current_model := some config.model_name }, tr)
  else
    match b.client with
    | some _ =>
      match clientHealthCheck env.healthProbe with
      | .error e => (.error e, b, [.netProbe])
      | .ok _ => (.ok (), { b with current_model := some config.model_name }, [.netProbe])
    | none => (.ok (), { b with current_model := some config.model_name }, [])

/-- VllmBackend::infer from src/vllm.rs lines 142 to 152: no client fails
with BackendNotRunning; then, for an owning backend whose process is not
running, BackendNotRunning before any network call; otherwise delegate to
the client (the POST carries the serialized wire request). -/
def VllmBackendS.infer (env : Env) (b : VllmBackendS) (request : InferenceRequest) :
    Except AxonError InferenceResponse × List Effect :=
  match b.client with
  | none => (.error .BackendNotRunning, [])
  | some _ =>
    if b.owns_process && !(b.check_process env) then
      (.error .BackendNotRunning, [])
    else
      (clientInfer (env.httpPost (serializeWire (buildWireRequest request))) request,
       [.netInfer])

/-- The early-return condition of VllmBackend::health_check: the backend
owns its process, a process handle exists, and it is not running. -/
def VllmBackendS.deadOwned (env : Env) (b : VllmBackendS) : Bool :=
  b.owns_process &&
    (match b.process with
     | some process => !(process.is_running env.alive)
     | none => false)

/-- VllmBackend::health_check from src/vllm.rs lines 154 to 173: Failed if
an owned process has died; otherwise probe through the client when there
is one (Healthy on success, Degraded on failure), and Starting when there
is none. -/
def VllmBackendS.health_check (env : Env) (b : VllmBackendS) : HealthStatus :=
  if b.deadOwned env then .Failed
  else
    match b.client with
    | some _ =>
      match clientHealthCheck env.healthProbe with
      | .ok _ => .Healthy
      | .error _ => .Degraded
    | none => .Starting

/-- VllmBackend::metrics from src/vllm.rs lines 175 to 177: a clone of the
metrics field; it is a total function (it never fails and performs no
effect). -/
def VllmBackendS.metricsCall (b : VllmBackendS) : BackendMetrics :=
  b.metrics

/-- VllmBackend::shutdown from src/vllm.rs lines 179 to 188: take the
process handle (so it is removed from the state even on error), run its
terminate sequence, propagating an error from it; afterwards clear the
client and the recorded model identifier. -/
def VllmBackendS.shutdown (env : Env) (b : VllmBackendS) :
    Except AxonError Unit × VllmBackendS × List Effect :=
  match b.process with
  | some process =>
    let b1 := { b with process := none }
    match process.terminate env with
    | (.error e, tr) => (.error e, b1, tr)
    | (.ok _, tr) => (.ok (), { b1 with client := none, current_model := none }, tr)
  | none => (.ok (), { b with client := none, current_model := none }, [])

/-- States of a VllmBackendS reachable through its public constructors and
the state-changing operations of the InferenceBackend trait (infer,
health_check and metrics take the receiver by shared reference in the
source and cannot change the state). -/
inductive Reachable : VllmBackendS → Prop where
  | new : Reachable VllmBackendS.new
  | connect (base_url : String) : Reachable (VllmBackendS.connect_to base_url)
  | load (env : Env) (config : ModelConfig) {b : VllmBackendS} :
      Reachable b → Reachable (b.load_model env config).2.1
  | shut (env : Env) {b : VllmBackendS} :
      Reachable b → Reachable (b.shutdown env).2.1

/-- Concrete oracle environment used by the witness theorems. -/
def envW : Env :=
  { spawnOS := fun _ => .ok 1
    httpGet := fun _ _ => .transportErr "connection refused"
    healthProbe := .ok2xx
    httpPost := fun _ => .transportErr "connection refused"
    alive := fun _ => true
    aliveAfterTerm := fun _ => false }

/-- Concrete readiness-probe trace that answers 2xx on its tenth attempt
(attempt index 9), used by the witness for the readiness loop. -/
def probeW : Nat → ProbeAttempt :=
  fun i => if i = 9 then .ok2xx else .transportErr "connection refused"

/-- Concrete launch configuration on a non-default host and port, used by
the witness for the hardcoded readiness url. -/
def cfgW : VllmConfig :=
  { model_name := "m"
    host := "0.0.0.0"
    port := 9001
    tensor_parallel_size := none
    max_sequence_length := none
    dtype := none }

/-- Concrete request with top_k set to 40. -/
def reqTopK40 : InferenceRequest :=
  { InferenceRequest.default with
      sampling := { SamplingParams.default with top_k := some 40 } }

/-- Concrete request with top_k unset (the default leaves it unset). -/
def reqNoTopK : InferenceRequest := InferenceRequest.default

/-! Helper lemmas. -/

/-- The url built by wait_until_ready evaluates to the same fixed string
for every process handle, since host and port are hardcoded. -/
theorem readyUrl_const (p : VllmProcessS) :
    readyUrl p = "http://127.0.0.1:8000/health" := by
  have h : ("http://" ++ "127.0.0.1" ++ ":" ++ toString (8000 : Nat) ++ "/health" : String)
      = "http://127.0.0.1:8000/health" := by decide
  exact h

/-- Terminate always returns success, whatever the process and the world
did (src/vllm/process.rs lines 103 to 120 end in Ok(()) on every path). -/
theorem terminate_ok (env : Env) (p : VllmProcessS) :
    (p.terminate env).1 = .ok () := by
  unfold VllmProcessS.terminate
  cases p.pid with
  | none => rfl
  | some pid => dsimp only; split <;> rfl

/-- The polling loop makes at most as many probe attempts as its budget. -/
theorem waitFrom_attempts_le (probe : Nat → ProbeAttempt) :
    ∀ r i, (waitFrom probe i r).2.1 ≤ r := by
  intro r
  induction r with
  | zero => intro i; simp [waitFrom]
  | succ r ih =>
    intro i
    simp only [waitFrom]
    cases probe i with
    | ok2xx => simp
    | okNon2xx s => simpa using Nat.succ_le_succ (ih (i + 1))
    | transportErr m => simpa using Nat.succ_le_succ (ih (i + 1))

/-- The polling loop sleeps exactly 2 seconds per probe attempt made. -/
theorem waitFrom_sleep (probe : Nat → ProbeAttempt) :
    ∀ r i, (waitFrom probe i r).2.2 = 2 * (waitFrom probe i r).2.1 := by
  intro r
  induction r with
  | zero => intro i; simp [waitFrom]
  | succ r ih =>
    intro i
    simp only [waitFrom]
    cases probe i with
    | ok2xx => simp
    | okNon2xx s => simp [ih (i + 1)]; omega
    | transportErr m => simp [ih (i + 1)]; omega

/-- If the first 2xx answer comes at relative attempt k within the budget,
the polling loop succeeds after exactly k plus 1 attempts and 2 times that
many seconds. -/
theorem waitFrom_first_success (probe : Nat → ProbeAttempt) :
    ∀ k i r, k < r → probe (i + k) = .ok2xx →
      (∀ j, j < k → probe (i + j) ≠ .ok2xx) →
      waitFrom probe i r = (.ok (), k + 1, 2 * (k + 1)) := by
  intro k
  induction k with
  | zero =>
    intro i r hr hs _
    match r, hr with
    | r + 1, _ =>
      simp only [waitFrom]
      rw [show i + 0 = i from rfl] at hs
      rw [hs]
  | succ k ih =>
    intro i r hr hs hmin
    match r, hr with
    | r + 1, hr =>
      have h0 : probe i ≠ .ok2xx := by
        have := hmin 0 (Nat.succ_pos k)
        simpa using this
      simp only [waitFrom]
      have hrec : waitFrom probe (i + 1) r = (.ok (), k + 1, 2 * (k + 1)) := by
        refine ih (i + 1) r (Nat.lt_of_succ_lt_succ hr) ?_ ?_
        · have : i + 1 + k = i + (k + 1) := by omega
          rw [this]; exact hs
        · intro j hj
          have : i + 1 + j = i + (j + 1) := by omega
          rw [this]; exact hmin (j + 1) (Nat.succ_lt_succ hj)
      cases hpi : probe i with
      | ok2xx => exact absurd hpi h0
      | okNon2xx s => simp [hrec]; omega
      | transportErr m => simp [hrec]; omega

/-- If no attempt within the budget answers 2xx, the polling loop fails
with the timeout error. -/
theorem waitFrom_exhausted (probe : Nat → ProbeAttempt) :
    ∀ r i, (∀ j, j < r → probe (i + j) ≠ .ok2xx) →
      (waitFrom probe i r).1
        = .error (.ModelLoadFailed "vLLM did not become ready in time") := by
  intro r
  induction r with
  | zero => intro i _; simp [waitFrom]
  | succ r ih =>
    intro i h
    have h0 : probe i ≠ .ok2xx := by
      have := h 0 (Nat.succ_pos r)
      simpa using this
    have hrec : (waitFrom probe (i + 1) r).1
        = .error (.ModelLoadFailed "vLLM did not become ready in time") := by
      refine ih (i + 1) ?_
      intro j hj
      have : i + 1 + j = i + (j + 1) := by omega
      rw [this]; exact h (j + 1) (Nat.succ_lt_succ hj)
    simp only [waitFrom]
    cases hpi : probe i with
    | ok2xx => exact absurd hpi h0
    | okNon2xx s => simpa using hrec
    | transportErr m => simpa using hrec

/-- Loading a model never touches the metrics field. -/
theorem load_model_metrics (env : Env) (b : VllmBackendS) (config : ModelConfig) :
    ((b.load_model env config).2.1).metrics = b.metrics := by
  unfold VllmBackendS.load_model
  split
  · rfl
  · split
    · split
      · rfl
      · split
        · rfl
        · split <;> rfl
    · split
      · split <;> rfl
      · rfl

/-- Loading a model never changes whether the backend owns its process. -/
theorem load_model_owns (env : Env) (b : VllmBackendS) (config : ModelConfig) :
    ((b.load_model env config).2.1).owns_process = b.owns_process := by
  unfold VllmBackendS.load_model
  split
  · rfl
  · split
    · split
      · rfl
      · split
        · rfl
        · split <;> rfl
    · split
      · split <;> rfl
      · rfl

/-- A backend that does not own its process never gains a process handle
from load_model. -/
theorem load_model_process_of_not_owns (env : Env) (b : VllmBackendS)
    (config : ModelConfig) (h : b.owns_process = false) :
    ((b.load_model env config).2.1).process = b.process := by
  unfold VllmBackendS.load_model
  split
  · rfl
  · rw [h]
    simp only [Bool.false_eq_true, if_false]
    split
    · split <;> rfl
    · rfl

/-- Shutdown always leaves the backend without a process handle. -/
theorem shutdown_process_none (env : Env) (b : VllmBackendS) :
    ((b.shutdown env).2.1).process = none := by
  unfold VllmBackendS.shutdown
  cases b.process with
  | none => rfl
  | some process => dsimp only; split <;> rfl

/-- Shutdown never touches the metrics field. -/
theorem shutdown_metrics (env : Env) (b : VllmBackendS) :
    ((b.shutdown env).2.1).metrics = b.metrics := by
  unfold VllmBackendS.shutdown
  cases b.process with
  | none => rfl
  | some process => dsimp only; split <;> rfl

/-- Shutdown succeeds and clears the process handle, the client and the
recorded model identifier (terminate cannot fail, so the propagation of a
terminate error in the source is never taken). -/
theorem shutdown_clears (env : Env) (b : VllmBackendS) :
    (b.shutdown env).1 = .ok ()
  ∧ ((b.shutdown env).2.1).process = none
  ∧ ((b.shutdown env).2.1).client = none
  ∧ ((b.shutdown env).2.1).current_model = none := by
  unfold VllmBackendS.shutdown
  cases b.process with
  | none => exact ⟨rfl, rfl, rfl, rfl⟩
  | some process =>
    have ht := terminate_ok env process
    dsimp only
    rcases htp : process.terminate env with ⟨r, tr⟩
    rw [htp] at ht
    dsimp only at ht
    subst ht
    exact ⟨rfl, rfl, rfl, rfl⟩

/-- In every reachable backend state, a present process handle implies the
backend owns its process. -/
theorem reachable_process_owns {b : VllmBackendS} (hb : Reachable b) :
    ∀ p, b.process = some p → b.owns_process = true := by
  induction hb with
  | new => intro p hp; simp [VllmBackendS.new] at hp
  | connect base_url => intro p hp; simp [VllmBackendS.connect_to] at hp
  | load env config hb ih =>
    rename_i b
    intro p hp
    rw [load_model_owns]
    by_cases hob : b.owns_process = true
    · exact hob
    · have hob' : b.owns_process = false := by
        revert hob; cases b.owns_process <;> simp
      exact ih p ((load_model_process_of_not_owns env b config hob') ▸ hp)
  | shut env hb ih =>
    intro p hp
    rw [shutdown_process_none] at hp
    exact Option.noConfusion hp

/-! Claim theorems. -/

/-- C1: for every ModelConfig with an empty model identifier, load_model
fails with InvalidConfig before any process is spawned or network call is
made: the effect trace is empty, no client or process handle is created,
and the backend state is returned unchanged. -/
theorem load_model_empty_name (env : Env) (b : VllmBackendS) (config : ModelConfig)
    (h : config.model_name = "") :
    b.load_model env config
      = (.error (.InvalidConfig "model_name cannot be empty"), b, []) := by
  unfold VllmBackendS.load_model
  rw [h]
  rfl

/-- Witness for C1 at the default ModelConfig (whose model_name is empty),
a fresh backend and the concrete environment. -/
theorem load_model_empty_name_witness :
    ModelConfig.default.model_name = ""
  ∧ VllmBackendS.new.load_model envW ModelConfig.default
      = (.error (.InvalidConfig "model_name cannot be empty"), VllmBackendS.new, []) :=
  ⟨rfl, load_model_empty_name envW VllmBackendS.new ModelConfig.default rfl⟩

/-- C2: health_check follows the derivation rule: a reachable backend
holding a process handle whose process is not alive reports Failed no
matter what the HTTP probe would say; otherwise with no client it reports
Starting (in particular a fresh backend reports Starting); otherwise the
probe decides between Healthy and Degraded. -/
theorem health_check_spec (env : Env) (b : VllmBackendS) (hb : Reachable b) :
    (∀ p, b.process = some p → p.is_running env.alive = false →
        b.health_check env = HealthStatus.Failed)
  ∧ ((∀ p, b.process = some p → p.is_running env.alive = true) →
        b.client = none → b.health_check env = HealthStatus.Starting)
  ∧ (∀ c, (∀ p, b.process = some p → p.is_running env.alive = true) →
        b.client = some c → clientHealthCheck env.healthProbe = .ok () →
        b.health_check env = HealthStatus.Healthy)
  ∧ (∀ c e, (∀ p, b.process = some p → p.is_running env.alive = true) →
        b.client = some c → clientHealthCheck env.healthProbe = .error e →
        b.health_check env = HealthStatus.Degraded)
  ∧ VllmBackendS.new.health_check env = HealthStatus.Starting := by
  have notDead : (∀ p, b.process = some p → p.is_running env.alive = true) →
      b.deadOwned env = false := by
    intro halive
    unfold VllmBackendS.deadOwned
    cases hp : b.process with
    | none => simp
    | some process => simp [halive process hp]
  refine ⟨?_, ?_, ?_, ?_, rfl⟩
  · intro p hp hdead
    have howns := reachable_process_owns hb p hp
    unfold VllmBackendS.health_check VllmBackendS.deadOwned
    simp [howns, hp, hdead]
  · intro halive hcl
    unfold VllmBackendS.health_check
    simp [notDead halive, hcl]
  · intro c halive hcl hprobe
    unfold VllmBackendS.health_check
    simp [notDead halive, hcl, hprobe]
  · intro c e halive hcl hprobe
    unfold VllmBackendS.health_check
    simp [notDead halive, hcl, hprobe]

/-- Witness for C2: a freshly constructed, not-yet-loaded backend reports
Starting in the concrete environment. -/
theorem health_check_spec_witness :
    VllmBackendS.new.health_check envW = HealthStatus.Starting :=
  (health_check_spec envW VllmBackendS.new Reachable.new).2.2.2.2

/-- C3: infer on a backend with no client fails with BackendNotRunning,
and infer on a reachable backend holding a process handle whose process
has exited fails with BackendNotRunning with an empty effect trace, so no
network call is issued. -/
theorem infer_not_running (env : Env) (b : VllmBackendS)
    (request : InferenceRequest) (hb : Reachable b) :
    (b.client = none →
        b.infer env request = (.error AxonError.BackendNotRunning, []))
  ∧ (∀ p, b.process = some p → p.is_running env.alive = false →
        b.infer env request = (.error AxonError.BackendNotRunning, [])) := by
  constructor
  · intro hcl
    unfold VllmBackendS.infer
    simp [hcl]
  · intro p hp hdead
    have howns := reachable_process_owns hb p hp
    unfold VllmBackendS.infer VllmBackendS.check_process
    cases hcl : b.client with
    | none => rfl
    | some c => simp [howns, hp, hdead]

/-- Witness for C3: a fresh backend has no client, so infer fails with
BackendNotRunning and performs no effect. -/
theorem infer_not_running_witness :
    VllmBackendS.new.infer envW InferenceRequest.default
      = (.error AxonError.BackendNotRunning, []) :=
  (infer_not_running envW VllmBackendS.new InferenceRequest.default Reachable.new).1 rfl

/-- C4: the readiness loop makes at most 60 probe attempts, sleeping
exactly 2 seconds before each one; the first 2xx answer returns success
immediately (non-2xx and transport errors just continue); and if no
attempt within the budget answers 2xx it fails with ModelLoadFailed
carrying the timeout reason. The last conjunct records that
wait_until_ready is exactly this loop run against the fixed health url. -/
theorem wait_until_ready_spec (probe : Nat → ProbeAttempt) :
    (waitFrom probe 0 60).2.1 ≤ 60
  ∧ (waitFrom probe 0 60).2.2 = 2 * (waitFrom probe 0 60).2.1
  ∧ (∀ k, k < 60 → probe k = .ok2xx → (∀ j, j < k → probe j ≠ .ok2xx) →
        waitFrom probe 0 60 = (.ok (), k + 1, 2 * (k + 1)))
  ∧ ((∀ i, i < 60 → probe i ≠ .ok2xx) →
        (waitFrom probe 0 60).1
          = .error (.ModelLoadFailed "vLLM did not become ready in time"))
  ∧ (∀ (env : Env) (p : VllmProcessS),
        wait_until_ready env p
          = waitFrom (fun i => env.httpGet "http://127.0.0.1:8000/health" i) 0 60) := by
  refine ⟨waitFrom_attempts_le probe 60 0, waitFrom_sleep probe 60 0, ?_, ?_, ?_⟩
  · intro k hk hs hmin
    have := waitFrom_first_success probe k 0 60 hk
    simp only [Nat.zero_add] at this
    exact this hs hmin
  · intro h
    have := waitFrom_exhausted probe 60 0
    simp only [Nat.zero_add] at this
    exact this h
  · intro env p
    unfold wait_until_ready
    simp only [readyUrl_const]

/-- Witness for C4: against a probe trace whose tenth attempt is the first
2xx, the loop succeeds after exactly 10 attempts and 20 seconds of sleep. -/
theorem wait_until_ready_spec_witness :
    waitFrom probeW 0 60 = (.ok (), 9 + 1, 2 * (9 + 1)) :=
  (wait_until_ready_spec probeW).2.2.1 9 (by decide) (by decide) (by decide)

/-- C5: shutdown always succeeds and always clears the process handle,
the client and the recorded model identifier; a second shutdown in
sequence also succeeds and leaves the same cleared state; and the
termination sequence itself never reports an error. -/
theorem shutdown_idempotent (env : Env) (b : VllmBackendS) :
    (b.shutdown env).1 = .ok ()
  ∧ ((b.shutdown env).2.1).process = none
  ∧ ((b.shutdown env).2.1).client = none
  ∧ ((b.shutdown env).2.1).current_model = none
  ∧ (((b.shutdown env).2.1).shutdown env).1 = .ok ()
  ∧ ((((b.shutdown env).2.1).shutdown env).2.1).process = none
  ∧ ((((b.shutdown env).2.1).shutdown env).2.1).client = none
  ∧ ((((b.shutdown env).2.1).shutdown env).2.1).current_model = none
  ∧ (∀ p : VllmProcessS, (p.terminate env).1 = .ok ()) := by
  obtain ⟨h1, h2, h3, h4⟩ := shutdown_clears env b
  obtain ⟨g1, g2, g3, g4⟩ := shutdown_clears env (b.shutdown env).2.1
  exact ⟨h1, h2, h3, h4, g1, g2, g3, g4, fun p => terminate_ok env p⟩

/-- C6: the serialized wire payload contains each optional sampling field
exactly when it is set, with the caller's value, and omits it entirely
when unset; stop is included exactly when the stop-sequence list is
nonempty. Concretely, a request with top_k unset yields a body with no
top_k key at all, and one with top_k set to 40 yields the key with value
40. -/
theorem wire_optional_fields :
    (∀ request : InferenceRequest,
        (serializeWire (buildWireRequest request)).lookup "top_p"
            = (request.sampling.top_p).map JVal.jfloat
      ∧ (serializeWire (buildWireRequest request)).lookup "top_k"
            = (request.sampling.top_k).map JVal.jnat
      ∧ (serializeWire (buildWireRequest request)).lookup "presence_penalty"
            = (request.sampling.presence_penalty).map JVal.jfloat
      ∧ (serializeWire (buildWireRequest request)).lookup "frequency_penalty"
            = (request.sampling.frequency_penalty).map JVal.jfloat
      ∧ (serializeWire (buildWireRequest request)).lookup "stop"
            = (if request.sampling.stop_sequences.isEmpty then none
               else some (JVal.jarr request.sampling.stop_sequences)))
  ∧ (serializeWire (buildWireRequest reqTopK40)).lookup "top_k"
        = some (JVal.jnat 40)
  ∧ (serializeWire (buildWireRequest reqNoTopK)).lookup "top_k" = none
  ∧ (serializeWire (buildWireRequest reqNoTopK)).map Prod.fst
        = ["model", "prompt", "max_tokens", "temperature", "top_p",
           "presence_penalty", "frequency_penalty"] := by
  refine ⟨?_, rfl, rfl, rfl⟩
  intro request
  obtain ⟨prompt, ⟨mt, temp, tp, tk, pp, fp, stops⟩, rid⟩ := request
  cases tp <;> cases tk <;> cases pp <;> cases fp <;> cases stops <;>
    exact ⟨rfl, rfl, rfl, rfl, rfl⟩

/-- C7: an HTTP-successful completion response with an empty choice list
makes the wire adapter fail with InferenceFailed (not a transport error),
and with a nonempty list the unified response is built from the first
choice only: the response id, the usage block and every choice past the
first are irrelevant to the result. -/
theorem infer_first_choice (elapsed : Float) (rid : Option String)
    (id : String) (u : VllmUsage) :
    responseFromVllm elapsed rid { id := id, choices := [], usage := u }
        = .error (.InferenceFailed "No choices in response")
  ∧ (∀ request : InferenceRequest,
        clientInfer (.httpOk elapsed (.ok { id := id, choices := [], usage := u }))
            request
          = .error (.InferenceFailed "No choices in response"))
  ∧ (∀ (c : VllmChoice) (t t' : List VllmChoice) (id' : String) (u' : VllmUsage),
        responseFromVllm elapsed rid { id := id, choices := c :: t, usage := u }
          = responseFromVllm elapsed rid { id := id', choices := c :: t', usage := u' }) :=
  ⟨rfl, fun _ => rfl, fun _ _ _ _ _ => rfl⟩

/-- C8: the readiness loop probes the hardcoded url
http://127.0.0.1:8000/health for every process handle, including one
obtained by spawning with a non-default host and port, whose own health
endpoint is then never the probed url; and wait_until_ready is definitionally
the loop against that fixed url. -/
theorem ready_url_hardcoded :
    (∀ p : VllmProcessS, readyUrl p = "http://127.0.0.1:8000/health")
  ∧ (∀ (env : Env) (cfg : VllmConfig) (p : VllmProcessS), spawn env cfg = .ok p →
        readyUrl p = "http://127.0.0.1:8000/health"
      ∧ (vllmHealthUrl cfg ≠ "http://127.0.0.1:8000/health" →
            readyUrl p ≠ vllmHealthUrl cfg))
  ∧ (∀ (env : Env) (p : VllmProcessS),
        wait_until_ready env p
          = waitFrom (fun i => env.httpGet "http://127.0.0.1:8000/health" i) 0 60) := by
  refine ⟨readyUrl_const, ?_, ?_⟩
  · intro env cfg p _
    refine ⟨readyUrl_const p, ?_⟩
    intro hne hcontra
    exact hne (hcontra.symm.trans (readyUrl_const p))
  · intro env p
    unfold wait_until_ready
    simp only [readyUrl_const]

/-- Witness for C8: a handle spawned from a config on host 0.0.0.0 and
port 9001 is still probed at the fixed url, which is not its own health
endpoint. -/
theorem ready_url_hardcoded_witness :
    readyUrl { pid := some 1 } = "http://127.0.0.1:8000/health"
  ∧ readyUrl { pid := some 1 } ≠ vllmHealthUrl cfgW := by
  have h := ready_url_hardcoded.2.1 envW cfgW { pid := some 1 } rfl
  exact ⟨h.1, h.2 (by decide)⟩

/-- C9: the model field of every serialized wire payload is the literal
string default, both in the built request and in the serialized body, and
it never equals any other model identifier such as the one recorded by
load_model. -/
theorem wire_model_default (request : InferenceRequest) (m : String) :
    (buildWireRequest request).model = "default"
  ∧ (serializeWire (buildWireRequest request)).lookup "model"
        = some (JVal.jstr "default")
  ∧ (m ≠ "default" → (buildWireRequest request).model ≠ m) := by
  refine ⟨rfl, rfl, fun hm hc => hm ?_⟩
  exact (hc.symm.trans rfl)

/-- Witness for C9: the default request carries model field default, which
differs from a nonempty model identifier such as llama. -/
theorem wire_model_default_witness :
    (buildWireRequest InferenceRequest.default).model = "default"
  ∧ (buildWireRequest InferenceRequest.default).model ≠ "llama" :=
  ⟨(wire_model_default InferenceRequest.default "llama").1,
   (wire_model_default InferenceRequest.default "llama").2.2 (by decide)⟩

/-- C10: no reachable sequence of load_model, infer, health_check and
shutdown calls ever changes the metrics: metrics (a total function, so it
never fails) returns exactly the initial BackendMetrics, with all counters
0, average_tps 0.0 and both utilization fields None; the counters are
therefore trivially monotonically non-decreasing. -/
theorem metrics_never_mutated (b : VllmBackendS) (hb : Reachable b) :
    b.metricsCall = BackendMetrics.new := by
  induction hb with
  | new => rfl
  | connect base_url => rfl
  | load env config hb ih =>
    unfold VllmBackendS.metricsCall at ih ⊢
    rw [load_model_metrics]
    exact ih
  | shut env hb ih =>
    unfold VllmBackendS.metricsCall at ih ⊢
    rw [shutdown_metrics]
    exact ih

/-- Witness for C10 at the freshly constructed backend. -/
theorem metrics_never_mutated_witness :
    VllmBackendS.new.metricsCall = BackendMetrics.new :=
  metrics_never_mutated VllmBackendS.new Reachable.new

end Axon
